import Mathlib

/-!
Shallow embedding of `pycanvas/user.py` (the `User` resource binding).

The binding translates method calls into HTTP requests built from the user's
`id` attribute and adapts the JSON responses.  The helpers it imports
(`CanvasObject.set_attributes`, `combine_kwargs`, `obj_or_id`, `PaginatedList`,
`Uploader`) live in sibling modules of the repository that are not under
`src/`; those are modelled from the spec, as marked on each definition.

JSON values are modelled with atomic constructors only (null, bool, integer,
string): the binding treats response values as opaque payloads, and only the
`id` attribute is ever interpolated into a request path, so nested arrays and
objects play no structural role in any operation of this file.  JSON object
bodies are association lists of string keys, mirroring Python dicts (keys
unique, insertion-ordered).
-/

inductive JsonValue where
  | null
  | bool (b : Bool)
  | num (n : Int)
  | str (s : String)
deriving DecidableEq, Repr

/-- A JSON object body: ordered string-keyed fields, as a Python dict. -/
abbrev JsonObj : Type := List (String × JsonValue)

/-- A parsed response body: either a JSON object or a JSON array of objects
(the shape list endpoints return). -/
inductive Body where
  | obj (o : JsonObj)
  | arr (items : List JsonObj)
deriving DecidableEq

inductive HttpMethod where
  | GET
  | PUT
  | POST
deriving DecidableEq, Repr

/-- One outbound HTTP request as the requester receives it: method, path, and
the keyword parameters forwarded with the call. -/
structure Request where
  method : HttpMethod
  path : String
  params : JsonObj
deriving DecidableEq

/-- The transport behind the shared requester: maps a request to a parsed JSON
body or a transport error (modelled as its message). -/
abbrev Transport : Type := Request → Except String Body

/-- Errors surfacing from a method call: a Python AttributeError, the
TypeError raised by identifier resolution, or a propagated transport error. -/
inductive PyErr where
  | attributeError (name : String)
  | typeError (msg : String)
  | transport (msg : String)
deriving DecidableEq, Repr

/-- Python `str()` of an attribute value, as `%s`-formatting performs it. -/
def JsonValue.pyStr : JsonValue → String
  | .null => "None"
  | .bool true => "True"
  | .bool false => "False"
  | .num n => toString n
  | .str s => s

/-- Look a key up in an attribute bag (first matching entry). -/
def lookupAttr : JsonObj → String → Option JsonValue
  | [], _ => none
  | p :: rest, k => if p.1 == k then some p.2 else lookupAttr rest k

/-- Embeds `object.__setattr__`: replace the entry for `k` in place, or append a new
one.  Bags built from Python objects never hold a key twice. -/
def setAttr : JsonObj → String → JsonValue → JsonObj
  | [], k, v => [(k, v)]
  | p :: rest, k, v => if p.1 == k then (k, v) :: rest else p :: setAttr rest k v

/-- A `User` instance: a flexible attribute bag populated from API responses.
Its `id` attribute identifies the remote entity. -/
structure User where
  attrs : JsonObj
deriving DecidableEq

/-- Python attribute access `self.k` (as an `Option`; `none` is the
AttributeError case). -/
def User.getattr (u : User) (k : String) : Option JsonValue :=
  lookupAttr u.attrs k

/-- Modelled from the spec: `CanvasObject.set_attributes` (module
`canvas_object`, not under `src/`) — "the returned JSON body overwrites
current attributes": every key of the JSON object is set as an attribute on
the instance with its value. -/
def set_attributes (u : User) (json : JsonObj) : User :=
  ⟨json.foldl (fun a kv => setAttr a kv.1 kv.2) u.attrs⟩

/-- Modelled from the spec: `combine_kwargs` (module `util`, not under
`src/`) flattens keyword configuration into request parameters; on an
already-flat keyword map it is the identity. -/
def combine_kwargs (kwargs : JsonObj) : JsonObj := kwargs

/-- The argument forms `merge_into` accepts: a `User` instance or a raw
value. -/
inductive MergeArg where
  | user (u : User)
  | raw (v : JsonValue)

/-- Modelled from the spec: `obj_or_id` (module `util`, not under `src/`)
resolves either a raw identifier (an integer, or a string holding one) or an
instance of the expected kind (here `User`, read through its `id` attribute)
to an identifier, and raises a TypeError for anything else. -/
def obj_or_id (arg : MergeArg) : Except PyErr JsonValue :=
  match arg with
  | .raw (.num n) => .ok (.num n)
  | .raw (.str s) =>
    match s.toInt? with
    | some n => .ok (.num n)
    | none => .error (.typeError "destination_user")
  | .raw _ => .error (.typeError "destination_user")
  | .user du =>
    match du.getattr "id" with
    | some v => .ok v
    | none => .error (.attributeError "id")

/-- Whether a raw value counts as a recognized identifier for `obj_or_id`. -/
def isRawIdentifier : JsonValue → Bool
  | .num _ => true
  | .str s => s.toInt?.isSome
  | _ => false

/-- Embeds `'users/%s' % self.id` followed by a sub-path: every path this binding
builds has this shape. -/
def userPath (idv : JsonValue) (sub : String) : String :=
  "users/" ++ idv.pyStr ++ sub

/-- Embeds `self._requester.request(method, path, **params)`: issues exactly one
request on the transport and yields its outcome. -/
def Requester.request (t : Transport) (m : HttpMethod) (p : String)
    (params : JsonObj) : Except String Body × List Request :=
  (t ⟨m, p, params⟩, [⟨m, p, params⟩])

/-- The observable outcome of one method call on a `User` instance: the
post-state of `self`, the returned value or raised error, and the requests
issued through the requester during the call. -/
structure MethodResult (α : Type) where
  self : User
  result : Except PyErr α
  requests : List Request

/-- Modelled from the spec: `PaginatedList` (module `paginated_list`, not
under `src/`) stores the content class, method, path and params it was given
and issues no request until iteration begins. -/
structure PaginatedList (α : Type) where
  contentClass : JsonObj → α
  method : HttpMethod
  path : String
  params : JsonObj

/-- Modelled from the spec: beginning iteration of a `PaginatedList` fetches
a page with the stored request and constructs each of the page's JSON items
with the content class.  (Follow-up pages of a longer sequence are fetched
the same lazy way and are beyond what any property here needs.) -/
def PaginatedList.iterate {α : Type} (pl : PaginatedList α) (t : Transport) :
    Except PyErr (List α) × List Request :=
  match Requester.request t pl.method pl.path pl.params with
  | (.error e, reqs) => (.error (.transport e), reqs)
  | (.ok (.obj _), reqs) => (.error (.typeError "page is not a list"), reqs)
  | (.ok (.arr items), reqs) => (.ok (items.map pl.contentClass), reqs)

/-- All requests issued by a listing call followed by beginning iteration of
the sequence it returned. -/
def callAndIterate {α : Type} (r : MethodResult (PaginatedList α))
    (t : Transport) : List Request :=
  r.requests ++ (match r.result with
    | .ok pl => (pl.iterate t).2
    | .error _ => [])

/-- Thin bindings of the same shape as `User`, owned by pagination. -/
structure PageView where
  attrs : JsonObj

structure Course where
  attrs : JsonObj

structure Assignment where
  attrs : JsonObj

structure Avatar where
  attrs : JsonObj

structure Enrollment where
  attrs : JsonObj

/-- Modelled from the spec: `Uploader` (module `upload`, not under `src/`)
performs the delegated multi-step file-upload handshake.  Through the shared
requester it issues the initial `POST` to the endpoint path it was given; the
later steps of the handshake happen outside the requester and the success
flag of the result tuple is theirs to determine (modelled as the initial
request having succeeded). -/
structure Uploader where
  path : String
  file : String
  kwargs : JsonObj

def Uploader.start (up : Uploader) (t : Transport) :
    Except PyErr (Bool × Body) × List Request :=
  match Requester.request t .POST up.path up.kwargs with
  | (.error e, reqs) => (.error (.transport e), reqs)
  | (.ok body, reqs) => (.ok (true, body), reqs)

/-- Embeds `User.get_profile`: `GET users/%s/profile % self.id`; accepts `**kwargs`
but does not forward them to the request; returns `response.json()`. -/
def User.get_profile (u : User) (t : Transport) (kwargs : JsonObj) :
    MethodResult Body :=
  match u.getattr "id" with
  | none => ⟨u, .error (.attributeError "id"), []⟩
  | some idv =>
    match Requester.request t .GET (userPath idv "/profile") [] with
    | (r, reqs) => ⟨u, r.mapError PyErr.transport, reqs⟩

/-- Embeds `User.get_page_views`: a `PaginatedList` of `PageView` over
`GET users/%s/page_views % self.id` with `combine_kwargs(**kwargs)`. -/
def User.get_page_views (u : User) (t : Transport) (kwargs : JsonObj) :
    MethodResult (PaginatedList PageView) :=
  match u.getattr "id" with
  | none => ⟨u, .error (.attributeError "id"), []⟩
  | some idv =>
    ⟨u, .ok ⟨PageView.mk, .GET, userPath idv "/page_views",
      combine_kwargs kwargs⟩, []⟩

/-- Embeds `User.get_courses`: a `PaginatedList` of `Course` over
`GET users/%s/courses % self.id` with `combine_kwargs(**kwargs)`. -/
def User.get_courses (u : User) (t : Transport) (kwargs : JsonObj) :
    MethodResult (PaginatedList Course) :=
  match u.getattr "id" with
  | none => ⟨u, .error (.attributeError "id"), []⟩
  | some idv =>
    ⟨u, .ok ⟨Course.mk, .GET, userPath idv "/courses",
      combine_kwargs kwargs⟩, []⟩

/-- Embeds `User.get_missing_submissions`: a `PaginatedList` of `Assignment` over
`GET users/%s/missing_submissions % self.id` (no kwargs in the source). -/
def User.get_missing_submissions (u : User) (t : Transport) :
    MethodResult (PaginatedList Assignment) :=
  match u.getattr "id" with
  | none => ⟨u, .error (.attributeError "id"), []⟩
  | some idv =>
    ⟨u, .ok ⟨Assignment.mk, .GET, userPath idv "/missing_submissions", []⟩, []⟩

/-- Embeds `User.update_settings`: `PUT users/%s/settings % self.id` with
`combine_kwargs(**kwargs)`; returns `response.json()`. -/
def User.update_settings (u : User) (t : Transport) (kwargs : JsonObj) :
    MethodResult Body :=
  match u.getattr "id" with
  | none => ⟨u, .error (.attributeError "id"), []⟩
  | some idv =>
    match Requester.request t .PUT (userPath idv "/settings")
        (combine_kwargs kwargs) with
    | (r, reqs) => ⟨u, r.mapError PyErr.transport, reqs⟩

/-- Embeds `User.get_color`: `GET users/%s/colors/%s % (self.id, asset_string)`;
returns `response.json()`. -/
def User.get_color (u : User) (t : Transport) (asset_string : String) :
    MethodResult Body :=
  match u.getattr "id" with
  | none => ⟨u, .error (.attributeError "id"), []⟩
  | some idv =>
    match Requester.request t .GET
        (userPath idv ("/colors/" ++ asset_string)) [] with
    | (r, reqs) => ⟨u, r.mapError PyErr.transport, reqs⟩

/-- Embeds `User.get_colors`: `GET users/%s/colors % self.id`; returns
`response.json()`. -/
def User.get_colors (u : User) (t : Transport) : MethodResult Body :=
  match u.getattr "id" with
  | none => ⟨u, .error (.attributeError "id"), []⟩
  | some idv =>
    match Requester.request t .GET (userPath idv "/colors") [] with
    | (r, reqs) => ⟨u, r.mapError PyErr.transport, reqs⟩

/-- Embeds `User.update_color`: `PUT users/%s/colors/%s % (self.id, asset_string)`
with `hexcode=hexcode` as the only keyword parameter; returns
`response.json()`. -/
def User.update_color (u : User) (t : Transport) (asset_string : String)
    (hexcode : String) : MethodResult Body :=
  match u.getattr "id" with
  | none => ⟨u, .error (.attributeError "id"), []⟩
  | some idv =>
    match Requester.request t .PUT
        (userPath idv ("/colors/" ++ asset_string))
        [("hexcode", .str hexcode)] with
    | (r, reqs) => ⟨u, r.mapError PyErr.transport, reqs⟩

/-- Embeds `User.edit`: `PUT users/%s % self.id` with `combine_kwargs(**kwargs)`;
on success `set_attributes(response.json())` mutates `self` in place and the
method returns `self`. -/
def User.edit (u : User) (t : Transport) (kwargs : JsonObj) :
    MethodResult User :=
  match u.getattr "id" with
  | none => ⟨u, .error (.attributeError "id"), []⟩
  | some idv =>
    match Requester.request t .PUT ("users/" ++ idv.pyStr)
        (combine_kwargs kwargs) with
    | (.error e, reqs) => ⟨u, .error (.transport e), reqs⟩
    | (.ok (.arr _), reqs) => ⟨u, .error (.attributeError "items"), reqs⟩
    | (.ok (.obj body), reqs) =>
      let u2 := set_attributes u body
      ⟨u2, .ok u2, reqs⟩

/-- Embeds `User.merge_into`: resolves the destination through `obj_or_id`, then
`PUT users/%s/merge_into/%s % (self.id, dest_user_id)`; on success
`set_attributes(response.json())` mutates `self` in place and the method
returns `self`. -/
def User.merge_into (u : User) (t : Transport) (destination_user : MergeArg) :
    MethodResult User :=
  match obj_or_id destination_user with
  | .error e => ⟨u, .error e, []⟩
  | .ok destId =>
    match u.getattr "id" with
    | none => ⟨u, .error (.attributeError "id"), []⟩
    | some idv =>
      match Requester.request t .PUT
          (userPath idv ("/merge_into/" ++ destId.pyStr)) [] with
      | (.error e, reqs) => ⟨u, .error (.transport e), reqs⟩
      | (.ok (.arr _), reqs) => ⟨u, .error (.attributeError "items"), reqs⟩
      | (.ok (.obj body), reqs) =>
        let u2 := set_attributes u body
        ⟨u2, .ok u2, reqs⟩

/-- Embeds `User.get_avatars`: a `PaginatedList` of `Avatar` over
`GET users/%s/avatars % self.id` (no kwargs in the source). -/
def User.get_avatars (u : User) (t : Transport) :
    MethodResult (PaginatedList Avatar) :=
  match u.getattr "id" with
  | none => ⟨u, .error (.attributeError "id"), []⟩
  | some idv =>
    ⟨u, .ok ⟨Avatar.mk, .GET, userPath idv "/avatars", []⟩, []⟩

/-- Embeds `User.get_assignments`: a `PaginatedList` of `Assignment` over
`GET users/%s/courses/%s/assignments % (self.id, course_id)` with
`combine_kwargs(**kwargs)`. -/
def User.get_assignments (u : User) (t : Transport) (course_id : JsonValue)
    (kwargs : JsonObj) : MethodResult (PaginatedList Assignment) :=
  match u.getattr "id" with
  | none => ⟨u, .error (.attributeError "id"), []⟩
  | some idv =>
    ⟨u, .ok ⟨Assignment.mk, .GET,
      userPath idv ("/courses/" ++ course_id.pyStr ++ "/assignments"),
      combine_kwargs kwargs⟩, []⟩

/-- Embeds `User.get_enrollments`: a `PaginatedList` of `Enrollment` over
`GET users/%s/enrollments % self.id` with `combine_kwargs(**kwargs)`. -/
def User.get_enrollments (u : User) (t : Transport) (kwargs : JsonObj) :
    MethodResult (PaginatedList Enrollment) :=
  match u.getattr "id" with
  | none => ⟨u, .error (.attributeError "id"), []⟩
  | some idv =>
    ⟨u, .ok ⟨Enrollment.mk, .GET, userPath idv "/enrollments",
      combine_kwargs kwargs⟩, []⟩

/-- Embeds `User.upload`: delegates to
`Uploader(self._requester, 'users/%s/files' % self.id, file, **kwargs).start()`. -/
def User.upload (u : User) (t : Transport) (file : String)
    (kwargs : JsonObj) : MethodResult (Bool × Body) :=
  match u.getattr "id" with
  | none => ⟨u, .error (.attributeError "id"), []⟩
  | some idv =>
    match Uploader.start ⟨userPath idv "/files", file, kwargs⟩ t with
    | (r, reqs) => ⟨u, r, reqs⟩

/-! ### Lemmas about the attribute bag -/

theorem lookupAttr_setAttr_self (attrs : JsonObj) (k : String) (v : JsonValue) :
    lookupAttr (setAttr attrs k v) k = some v := by
  induction attrs with
  | nil => simp [setAttr, lookupAttr]
  | cons p rest ih =>
    cases hp : (p.1 == k) with
    | true => simp [setAttr, hp, lookupAttr]
    | false => simp [setAttr, hp, lookupAttr, ih]

theorem lookupAttr_setAttr_ne (attrs : JsonObj) (k k2 : String) (v : JsonValue)
    (h : k2 ≠ k) : lookupAttr (setAttr attrs k v) k2 = lookupAttr attrs k2 := by
  have hk : (k == k2) = false := beq_false_of_ne (Ne.symm h)
  induction attrs with
  | nil => simp [setAttr, lookupAttr, hk]
  | cons p rest ih =>
    cases hp : (p.1 == k) with
    | true =>
      have hpk : p.1 = k := eq_of_beq hp
      simp [setAttr, hp, lookupAttr, hk, hpk]
    | false => simp [setAttr, hp, lookupAttr, ih]

theorem lookupAttr_setAll_not_mem (json : JsonObj) (attrs : JsonObj) (k : String)
    (h : k ∉ json.map Prod.fst) :
    lookupAttr (json.foldl (fun a kv => setAttr a kv.1 kv.2) attrs) k =
      lookupAttr attrs k := by
  induction json generalizing attrs with
  | nil => rfl
  | cons kv rest ih =>
    simp only [List.map_cons, List.mem_cons, not_or] at h
    rw [List.foldl_cons, ih _ (by simpa using h.2),
      lookupAttr_setAttr_ne _ _ _ _ h.1]

theorem lookupAttr_setAll_mem (json : JsonObj) (attrs : JsonObj) (k : String)
    (v : JsonValue) (hnd : (json.map Prod.fst).Nodup) (hmem : (k, v) ∈ json) :
    lookupAttr (json.foldl (fun a kv => setAttr a kv.1 kv.2) attrs) k = some v := by
  induction json generalizing attrs with
  | nil => cases hmem
  | cons kv rest ih =>
    simp only [List.map_cons, List.nodup_cons] at hnd
    rcases List.mem_cons.mp hmem with heq | hmem2
    · subst heq
      rw [List.foldl_cons, lookupAttr_setAll_not_mem _ _ _ hnd.1,
        lookupAttr_setAttr_self]
    · rw [List.foldl_cons]
      exact ih _ hnd.2 hmem2

theorem getattr_set_attributes_not_mem (u : User) (json : JsonObj) (k : String)
    (h : k ∉ json.map Prod.fst) :
    (set_attributes u json).getattr k = u.getattr k :=
  lookupAttr_setAll_not_mem json u.attrs k h

theorem getattr_set_attributes_mem (u : User) (json : JsonObj) (k : String)
    (v : JsonValue) (hnd : (json.map Prod.fst).Nodup) (hmem : (k, v) ∈ json) :
    (set_attributes u json).getattr k = some v :=
  lookupAttr_setAll_mem json u.attrs k v hnd hmem

/-! ### Concrete fixtures (mock users and transports) -/

/-- A user with id 5, as in the spec's merge scenario. -/
def user5 : User := ⟨[("id", .num 5)]⟩

/-- A user with id 7, the merge destination of the spec's scenario. -/
def user7 : User := ⟨[("id", .num 7)]⟩

/-- The spec scenario's response body for `PUT users/5/merge_into/7`. -/
def mergeBody : JsonObj := [("id", .num 7), ("merge_into_id", .null)]

/-- Mock transport of the spec scenario: answers `PUT users/5/merge_into/7`
with `{"id": 7, "merge_into_id": null}` and nothing else. -/
def mergeTransport : Transport := fun req =>
  if req = ⟨.PUT, "users/5/merge_into/7", []⟩ then .ok (.obj mergeBody)
  else .error "unexpected request"

/-- Mock transport answering `PUT users/5` (edit) with `{"id": 9}`. -/
def editIdTransport : Transport := fun req =>
  if req = ⟨.PUT, "users/5", []⟩ then .ok (.obj [("id", .num 9)])
  else .error "unexpected request"

/-- Mock transport answering `PUT users/5` with `{"name": "ada"}` and
`PUT users/5/merge_into/7` with `{"merged": true}` (no `id` key in either). -/
def noIdTransport : Transport := fun req =>
  if req = ⟨.PUT, "users/5", []⟩ then .ok (.obj [("name", .str "ada")])
  else if req = ⟨.PUT, "users/5/merge_into/7", []⟩ then
    .ok (.obj [("merged", .bool true)])
  else .error "unexpected request"

/-- Mock transport answering `GET users/5/profile` with `{"name": "ada"}`. -/
def profileTransport : Transport := fun req =>
  if req = ⟨.GET, "users/5/profile", []⟩ then .ok (.obj [("name", .str "ada")])
  else .error "unexpected request"

/-- Mock transport that fails every request. -/
def downTransport : Transport := fun _ => .error "boom"

/-! ### Per-method characterization lemmas -/

theorem edit_of_error (u : User) (t : Transport) (kwargs : JsonObj)
    (idv : JsonValue) (e : String) (hid : u.getattr "id" = some idv)
    (ht : t ⟨.PUT, "users/" ++ idv.pyStr, combine_kwargs kwargs⟩ = .error e) :
    User.edit u t kwargs =
      ⟨u, .error (.transport e),
        [⟨.PUT, "users/" ++ idv.pyStr, combine_kwargs kwargs⟩]⟩ := by
  simp [User.edit, hid, Requester.request, ht]

theorem edit_of_arr (u : User) (t : Transport) (kwargs : JsonObj)
    (idv : JsonValue) (items : List JsonObj) (hid : u.getattr "id" = some idv)
    (ht : t ⟨.PUT, "users/" ++ idv.pyStr, combine_kwargs kwargs⟩
      = .ok (.arr items)) :
    User.edit u t kwargs =
      ⟨u, .error (.attributeError "items"),
        [⟨.PUT, "users/" ++ idv.pyStr, combine_kwargs kwargs⟩]⟩ := by
  simp [User.edit, hid, Requester.request, ht]

theorem edit_of_obj (u : User) (t : Transport) (kwargs : JsonObj)
    (idv : JsonValue) (body : JsonObj) (hid : u.getattr "id" = some idv)
    (ht : t ⟨.PUT, "users/" ++ idv.pyStr, combine_kwargs kwargs⟩
      = .ok (.obj body)) :
    User.edit u t kwargs =
      ⟨set_attributes u body, .ok (set_attributes u body),
        [⟨.PUT, "users/" ++ idv.pyStr, combine_kwargs kwargs⟩]⟩ := by
  simp [User.edit, hid, Requester.request, ht]

theorem edit_requests (u : User) (t : Transport) (kwargs : JsonObj)
    (idv : JsonValue) (hid : u.getattr "id" = some idv) :
    (User.edit u t kwargs).requests =
      [⟨.PUT, "users/" ++ idv.pyStr, combine_kwargs kwargs⟩] := by
  cases ht : t ⟨.PUT, "users/" ++ idv.pyStr, combine_kwargs kwargs⟩ with
  | error e => rw [edit_of_error u t kwargs idv e hid ht]
  | ok b =>
    cases b with
    | obj o => rw [edit_of_obj u t kwargs idv o hid ht]
    | arr a => rw [edit_of_arr u t kwargs idv a hid ht]

theorem merge_into_of_error (u : User) (t : Transport) (darg : MergeArg)
    (idv dv : JsonValue) (e : String) (hid : u.getattr "id" = some idv)
    (hdarg : obj_or_id darg = .ok dv)
    (ht : t ⟨.PUT, userPath idv ("/merge_into/" ++ dv.pyStr), []⟩
      = .error e) :
    User.merge_into u t darg =
      ⟨u, .error (.transport e),
        [⟨.PUT, userPath idv ("/merge_into/" ++ dv.pyStr), []⟩]⟩ := by
  simp [User.merge_into, hdarg, hid, Requester.request, ht]

theorem merge_into_of_arr (u : User) (t : Transport) (darg : MergeArg)
    (idv dv : JsonValue) (items : List JsonObj)
    (hid : u.getattr "id" = some idv) (hdarg : obj_or_id darg = .ok dv)
    (ht : t ⟨.PUT, userPath idv ("/merge_into/" ++ dv.pyStr), []⟩
      = .ok (.arr items)) :
    User.merge_into u t darg =
      ⟨u, .error (.attributeError "items"),
        [⟨.PUT, userPath idv ("/merge_into/" ++ dv.pyStr), []⟩]⟩ := by
  simp [User.merge_into, hdarg, hid, Requester.request, ht]

theorem merge_into_of_obj (u : User) (t : Transport) (darg : MergeArg)
    (idv dv : JsonValue) (body : JsonObj) (hid : u.getattr "id" = some idv)
    (hdarg : obj_or_id darg = .ok dv)
    (ht : t ⟨.PUT, userPath idv ("/merge_into/" ++ dv.pyStr), []⟩
      = .ok (.obj body)) :
    User.merge_into u t darg =
      ⟨set_attributes u body, .ok (set_attributes u body),
        [⟨.PUT, userPath idv ("/merge_into/" ++ dv.pyStr), []⟩]⟩ := by
  simp [User.merge_into, hdarg, hid, Requester.request, ht]

theorem merge_into_requests (u : User) (t : Transport) (darg : MergeArg)
    (idv dv : JsonValue) (hid : u.getattr "id" = some idv)
    (hdarg : obj_or_id darg = .ok dv) :
    (User.merge_into u t darg).requests =
      [⟨.PUT, userPath idv ("/merge_into/" ++ dv.pyStr), []⟩] := by
  cases ht : t ⟨.PUT, userPath idv ("/merge_into/" ++ dv.pyStr), []⟩ with
  | error e => rw [merge_into_of_error u t darg idv dv e hid hdarg ht]
  | ok b =>
    cases b with
    | obj o => rw [merge_into_of_obj u t darg idv dv o hid hdarg ht]
    | arr a => rw [merge_into_of_arr u t darg idv dv a hid hdarg ht]

theorem iterate_requests {α : Type} (pl : PaginatedList α) (t : Transport) :
    (pl.iterate t).2 = [⟨pl.method, pl.path, pl.params⟩] := by
  unfold PaginatedList.iterate
  cases ht : t ⟨pl.method, pl.path, pl.params⟩ with
  | error e => simp [Requester.request, ht]
  | ok b => cases b with
    | obj o => simp [Requester.request, ht]
    | arr items => simp [Requester.request, ht]

theorem iterate_of_arr {α : Type} (pl : PaginatedList α) (t : Transport)
    (items : List JsonObj)
    (ht : t ⟨pl.method, pl.path, pl.params⟩ = .ok (.arr items)) :
    (pl.iterate t).1 = .ok (items.map pl.contentClass) := by
  simp [PaginatedList.iterate, Requester.request, ht]

theorem get_profile_eq (u : User) (t : Transport) (kwargs : JsonObj)
    (idv : JsonValue) (hid : u.getattr "id" = some idv) :
    User.get_profile u t kwargs =
      ⟨u, (t ⟨.GET, userPath idv "/profile", []⟩).mapError PyErr.transport,
        [⟨.GET, userPath idv "/profile", []⟩]⟩ := by
  simp [User.get_profile, hid, Requester.request]

theorem update_settings_eq (u : User) (t : Transport) (kwargs : JsonObj)
    (idv : JsonValue) (hid : u.getattr "id" = some idv) :
    User.update_settings u t kwargs =
      ⟨u, (t ⟨.PUT, userPath idv "/settings", combine_kwargs kwargs⟩).mapError
          PyErr.transport,
        [⟨.PUT, userPath idv "/settings", combine_kwargs kwargs⟩]⟩ := by
  simp [User.update_settings, hid, Requester.request]

theorem get_color_eq (u : User) (t : Transport) (asset_string : String)
    (idv : JsonValue) (hid : u.getattr "id" = some idv) :
    User.get_color u t asset_string =
      ⟨u, (t ⟨.GET, userPath idv ("/colors/" ++ asset_string), []⟩).mapError
          PyErr.transport,
        [⟨.GET, userPath idv ("/colors/" ++ asset_string), []⟩]⟩ := by
  simp [User.get_color, hid, Requester.request]

theorem get_colors_eq (u : User) (t : Transport)
    (idv : JsonValue) (hid : u.getattr "id" = some idv) :
    User.get_colors u t =
      ⟨u, (t ⟨.GET, userPath idv "/colors", []⟩).mapError PyErr.transport,
        [⟨.GET, userPath idv "/colors", []⟩]⟩ := by
  simp [User.get_colors, hid, Requester.request]

theorem update_color_eq (u : User) (t : Transport) (asset_string hexcode : String)
    (idv : JsonValue) (hid : u.getattr "id" = some idv) :
    User.update_color u t asset_string hexcode =
      ⟨u, (t ⟨.PUT, userPath idv ("/colors/" ++ asset_string),
            [("hexcode", .str hexcode)]⟩).mapError PyErr.transport,
        [⟨.PUT, userPath idv ("/colors/" ++ asset_string),
          [("hexcode", .str hexcode)]⟩]⟩ := by
  simp [User.update_color, hid, Requester.request]

theorem get_page_views_eq (u : User) (t : Transport) (kwargs : JsonObj)
    (idv : JsonValue) (hid : u.getattr "id" = some idv) :
    User.get_page_views u t kwargs =
      ⟨u, .ok ⟨PageView.mk, .GET, userPath idv "/page_views",
        combine_kwargs kwargs⟩, []⟩ := by
  simp [User.get_page_views, hid]

theorem get_courses_eq (u : User) (t : Transport) (kwargs : JsonObj)
    (idv : JsonValue) (hid : u.getattr "id" = some idv) :
    User.get_courses u t kwargs =
      ⟨u, .ok ⟨Course.mk, .GET, userPath idv "/courses",
        combine_kwargs kwargs⟩, []⟩ := by
  simp [User.get_courses, hid]

theorem get_missing_submissions_eq (u : User) (t : Transport)
    (idv : JsonValue) (hid : u.getattr "id" = some idv) :
    User.get_missing_submissions u t =
      ⟨u, .ok ⟨Assignment.mk, .GET, userPath idv "/missing_submissions", []⟩,
        []⟩ := by
  simp [User.get_missing_submissions, hid]

theorem get_avatars_eq (u : User) (t : Transport)
    (idv : JsonValue) (hid : u.getattr "id" = some idv) :
    User.get_avatars u t =
      ⟨u, .ok ⟨Avatar.mk, .GET, userPath idv "/avatars", []⟩, []⟩ := by
  simp [User.get_avatars, hid]

theorem get_assignments_eq (u : User) (t : Transport) (course_id : JsonValue)
    (kwargs : JsonObj) (idv : JsonValue) (hid : u.getattr "id" = some idv) :
    User.get_assignments u t course_id kwargs =
      ⟨u, .ok ⟨Assignment.mk, .GET,
        userPath idv ("/courses/" ++ course_id.pyStr ++ "/assignments"),
        combine_kwargs kwargs⟩, []⟩ := by
  simp [User.get_assignments, hid]

theorem get_enrollments_eq (u : User) (t : Transport) (kwargs : JsonObj)
    (idv : JsonValue) (hid : u.getattr "id" = some idv) :
    User.get_enrollments u t kwargs =
      ⟨u, .ok ⟨Enrollment.mk, .GET, userPath idv "/enrollments",
        combine_kwargs kwargs⟩, []⟩ := by
  simp [User.get_enrollments, hid]

theorem upload_of_error (u : User) (t : Transport) (file : String)
    (kwargs : JsonObj) (idv : JsonValue) (e : String)
    (hid : u.getattr "id" = some idv)
    (ht : t ⟨.POST, userPath idv "/files", kwargs⟩ = .error e) :
    User.upload u t file kwargs =
      ⟨u, .error (.transport e), [⟨.POST, userPath idv "/files", kwargs⟩]⟩ := by
  simp [User.upload, hid, Uploader.start, Requester.request, ht]

theorem upload_of_ok (u : User) (t : Transport) (file : String)
    (kwargs : JsonObj) (idv : JsonValue) (body : Body)
    (hid : u.getattr "id" = some idv)
    (ht : t ⟨.POST, userPath idv "/files", kwargs⟩ = .ok body) :
    User.upload u t file kwargs =
      ⟨u, .ok (true, body), [⟨.POST, userPath idv "/files", kwargs⟩]⟩ := by
  simp [User.upload, hid, Uploader.start, Requester.request, ht]

theorem upload_eq_parts (u : User) (t : Transport) (file : String)
    (kwargs : JsonObj) (idv : JsonValue) (hid : u.getattr "id" = some idv) :
    (User.upload u t file kwargs).self = u ∧
    (User.upload u t file kwargs).requests =
      [⟨.POST, userPath idv "/files", kwargs⟩] := by
  cases ht : t ⟨.POST, userPath idv "/files", kwargs⟩ with
  | error e => rw [upload_of_error u t file kwargs idv e hid ht]; exact ⟨rfl, rfl⟩
  | ok body => rw [upload_of_ok u t file kwargs idv body hid ht]; exact ⟨rfl, rfl⟩

/-- C2 (counterexample): `User.id` is not immutable: an `edit` whose response
body is `{"id": 9}` overwrites the id attribute of a user whose id was 5. -/
theorem edit_changes_id :
    (User.edit user5 editIdTransport []).self.getattr "id" = some (.num 9) ∧
    (User.edit user5 editIdTransport []).self.getattr "id"
      ≠ user5.getattr "id" := by
  constructor
  · rfl
  · decide

/-- C2 (amended): no operation of the `User` binding changes `self.id`,
except that `edit` and `merge_into` overwrite it when the JSON body the
requester returns contains an `"id"` key; whenever their response bodies
carry no `"id"` key, and for the other twelve operations unconditionally,
`self.id` is unchanged. -/
theorem user_id_preserved (u : User) (t : Transport) (darg : MergeArg)
    (idv dv cv : JsonValue) (kwargs : JsonObj) (asset hex file : String)
    (hid : u.getattr "id" = some idv)
    (hdarg : obj_or_id darg = .ok dv)
    (hedit : ∀ body, t ⟨.PUT, "users/" ++ idv.pyStr, combine_kwargs kwargs⟩
      = .ok (.obj body) → "id" ∉ body.map Prod.fst)
    (hmerge : ∀ body, t ⟨.PUT, userPath idv ("/merge_into/" ++ dv.pyStr), []⟩
      = .ok (.obj body) → "id" ∉ body.map Prod.fst) :
    (User.get_profile u t kwargs).self = u ∧
    (User.get_page_views u t kwargs).self = u ∧
    (User.get_courses u t kwargs).self = u ∧
    (User.get_missing_submissions u t).self = u ∧
    (User.update_settings u t kwargs).self = u ∧
    (User.get_color u t asset).self = u ∧
    (User.get_colors u t).self = u ∧
    (User.update_color u t asset hex).self = u ∧
    (User.edit u t kwargs).self.getattr "id" = u.getattr "id" ∧
    (User.merge_into u t darg).self.getattr "id" = u.getattr "id" ∧
    (User.get_avatars u t).self = u ∧
    (User.get_assignments u t cv kwargs).self = u ∧
    (User.get_enrollments u t kwargs).self = u ∧
    (User.upload u t file kwargs).self = u := by
  refine ⟨?_, ?_, ?_, ?_, ?_, ?_, ?_, ?_, ?_, ?_, ?_, ?_, ?_, ?_⟩
  · rw [get_profile_eq u t kwargs idv hid]
  · rw [get_page_views_eq u t kwargs idv hid]
  · rw [get_courses_eq u t kwargs idv hid]
  · rw [get_missing_submissions_eq u t idv hid]
  · rw [update_settings_eq u t kwargs idv hid]
  · rw [get_color_eq u t asset idv hid]
  · rw [get_colors_eq u t idv hid]
  · rw [update_color_eq u t asset hex idv hid]
  · cases ht : t ⟨.PUT, "users/" ++ idv.pyStr, combine_kwargs kwargs⟩ with
    | error e => rw [edit_of_error u t kwargs idv e hid ht]
    | ok b =>
      cases b with
      | arr a => rw [edit_of_arr u t kwargs idv a hid ht]
      | obj body =>
        rw [edit_of_obj u t kwargs idv body hid ht]
        exact getattr_set_attributes_not_mem u body "id" (hedit body ht)
  · cases ht : t ⟨.PUT, userPath idv ("/merge_into/" ++ dv.pyStr), []⟩ with
    | error e => rw [merge_into_of_error u t darg idv dv e hid hdarg ht]
    | ok b =>
      cases b with
      | arr a => rw [merge_into_of_arr u t darg idv dv a hid hdarg ht]
      | obj body =>
        rw [merge_into_of_obj u t darg idv dv body hid hdarg ht]
        exact getattr_set_attributes_not_mem u body "id" (hmerge body ht)
  · rw [get_avatars_eq u t idv hid]
  · rw [get_assignments_eq u t cv kwargs idv hid]
  · rw [get_enrollments_eq u t kwargs idv hid]
  · exact (upload_eq_parts u t file kwargs idv hid).1

/-- Witness for C2's amended theorem at the concrete fixtures: the transport
answers both mutating requests with bodies carrying no `"id"` key. -/
theorem user_id_preserved_witness :
    (User.edit user5 noIdTransport []).self.getattr "id"
      = user5.getattr "id" ∧
    (User.merge_into user5 noIdTransport (.user user7)).self.getattr "id"
      = user5.getattr "id" ∧
    (User.get_profile user5 noIdTransport []).self = user5 := by
  have h := user_id_preserved user5 noIdTransport (.user user7)
    (.num 5) (.num 7) (.num 3) [] "course_42" "fff" "f.txt"
    (by decide) rfl
    (by intro body hb
        injection hb with hb1
        injection hb1 with hb2
        rw [← hb2]
        decide)
    (by intro body hb
        injection hb with hb1
        injection hb1 with hb2
        rw [← hb2]
        decide)
  exact ⟨h.2.2.2.2.2.2.2.2.1, h.2.2.2.2.2.2.2.2.2.1, h.1⟩

/-- C3: after a successful `edit` or `merge_into`, every key of the returned
JSON object is present as an attribute on the instance with the corresponding
value, and the returned value is the very same (mutated) instance. -/
theorem edit_merge_reflect_response (u : User) (t : Transport)
    (darg : MergeArg) (idv dv : JsonValue) (kwargs : JsonObj)
    (ebody mbody : JsonObj)
    (hid : u.getattr "id" = some idv)
    (hdarg : obj_or_id darg = .ok dv)
    (he : t ⟨.PUT, "users/" ++ idv.pyStr, combine_kwargs kwargs⟩
      = .ok (.obj ebody))
    (hend : (ebody.map Prod.fst).Nodup)
    (hm : t ⟨.PUT, userPath idv ("/merge_into/" ++ dv.pyStr), []⟩
      = .ok (.obj mbody))
    (hmnd : (mbody.map Prod.fst).Nodup) :
    (User.edit u t kwargs).result = .ok (User.edit u t kwargs).self ∧
    (∀ kv ∈ ebody, (User.edit u t kwargs).self.getattr kv.1 = some kv.2) ∧
    (User.merge_into u t darg).result = .ok (User.merge_into u t darg).self ∧
    (∀ kv ∈ mbody,
      (User.merge_into u t darg).self.getattr kv.1 = some kv.2) := by
  rw [edit_of_obj u t kwargs idv ebody hid he,
      merge_into_of_obj u t darg idv dv mbody hid hdarg hm]
  refine ⟨rfl, ?_, rfl, ?_⟩
  · intro kv hkv
    exact getattr_set_attributes_mem u ebody kv.1 kv.2 hend (by simpa using hkv)
  · intro kv hkv
    exact getattr_set_attributes_mem u mbody kv.1 kv.2 hmnd (by simpa using hkv)

/-- Witness for C3 at the concrete fixtures: the mocked bodies
`{"name": "ada"}` (edit) and `{"merged": true}` (merge_into) end up as
attributes on the instance. -/
theorem edit_merge_reflect_response_witness :
    (User.edit user5 noIdTransport []).self.getattr "name"
      = some (.str "ada") ∧
    (User.merge_into user5 noIdTransport (.user user7)).self.getattr "merged"
      = some (.bool true) := by
  have h := edit_merge_reflect_response user5 noIdTransport (.user user7)
    (.num 5) (.num 7) [] [("name", .str "ada")] [("merged", .bool true)]
    (by decide) rfl rfl (by decide) rfl (by decide)
  exact ⟨by simpa using h.2.1 ("name", .str "ada") (by decide),
    by simpa using h.2.2.2 ("merged", .bool true) (by decide)⟩

/-- The request list of every operation, in one statement (shared by several
claim theorems below). -/
theorem user_requests_eq (u : User) (t : Transport) (darg : MergeArg)
    (idv dv cv : JsonValue) (kwargs : JsonObj) (asset hex file : String)
    (hid : u.getattr "id" = some idv) (hdarg : obj_or_id darg = .ok dv) :
    (User.get_profile u t kwargs).requests
      = [⟨.GET, userPath idv "/profile", []⟩] ∧
    callAndIterate (User.get_page_views u t kwargs) t
      = [⟨.GET, userPath idv "/page_views", combine_kwargs kwargs⟩] ∧
    callAndIterate (User.get_courses u t kwargs) t
      = [⟨.GET, userPath idv "/courses", combine_kwargs kwargs⟩] ∧
    callAndIterate (User.get_missing_submissions u t) t
      = [⟨.GET, userPath idv "/missing_submissions", []⟩] ∧
    (User.update_settings u t kwargs).requests
      = [⟨.PUT, userPath idv "/settings", combine_kwargs kwargs⟩] ∧
    (User.get_color u t asset).requests
      = [⟨.GET, userPath idv ("/colors/" ++ asset), []⟩] ∧
    (User.get_colors u t).requests
      = [⟨.GET, userPath idv "/colors", []⟩] ∧
    (User.update_color u t asset hex).requests
      = [⟨.PUT, userPath idv ("/colors/" ++ asset),
          [("hexcode", .str hex)]⟩] ∧
    (User.edit u t kwargs).requests
      = [⟨.PUT, "users/" ++ idv.pyStr, combine_kwargs kwargs⟩] ∧
    (User.merge_into u t darg).requests
      = [⟨.PUT, userPath idv ("/merge_into/" ++ dv.pyStr), []⟩] ∧
    callAndIterate (User.get_avatars u t) t
      = [⟨.GET, userPath idv "/avatars", []⟩] ∧
    callAndIterate (User.get_assignments u t cv kwargs) t
      = [⟨.GET, userPath idv ("/courses/" ++ cv.pyStr ++ "/assignments"),
          combine_kwargs kwargs⟩] ∧
    callAndIterate (User.get_enrollments u t kwargs) t
      = [⟨.GET, userPath idv "/enrollments", combine_kwargs kwargs⟩] ∧
    (User.upload u t file kwargs).requests
      = [⟨.POST, userPath idv "/files", kwargs⟩] := by
  refine ⟨?_, ?_, ?_, ?_, ?_, ?_, ?_, ?_, ?_, ?_, ?_, ?_, ?_, ?_⟩
  · rw [get_profile_eq u t kwargs idv hid]
  · simp [callAndIterate, get_page_views_eq u t kwargs idv hid,
      iterate_requests]
  · simp [callAndIterate, get_courses_eq u t kwargs idv hid, iterate_requests]
  · simp [callAndIterate, get_missing_submissions_eq u t idv hid,
      iterate_requests]
  · rw [update_settings_eq u t kwargs idv hid]
  · rw [get_color_eq u t asset idv hid]
  · rw [get_colors_eq u t idv hid]
  · rw [update_color_eq u t asset hex idv hid]
  · exact edit_requests u t kwargs idv hid
  · exact merge_into_requests u t darg idv dv hid hdarg
  · simp [callAndIterate, get_avatars_eq u t idv hid, iterate_requests]
  · simp [callAndIterate, get_assignments_eq u t cv kwargs idv hid,
      iterate_requests]
  · simp [callAndIterate, get_enrollments_eq u t kwargs idv hid,
      iterate_requests]
  · exact (upload_eq_parts u t file kwargs idv hid).2

/-- C4: for a user whose id attribute is `idv` (and a resolvable merge
destination), each of the fourteen operations issues exactly one request,
with the method and path of §6 — for the six listing operations counting the
call together with the beginning of iteration of the returned sequence. -/
theorem user_request_paths (u : User) (t : Transport) (darg : MergeArg)
    (idv dv cv : JsonValue) (kwargs : JsonObj) (asset hex file : String)
    (hid : u.getattr "id" = some idv) (hdarg : obj_or_id darg = .ok dv) :
    (User.get_profile u t kwargs).requests
      = [⟨.GET, userPath idv "/profile", []⟩] ∧
    callAndIterate (User.get_page_views u t kwargs) t
      = [⟨.GET, userPath idv "/page_views", combine_kwargs kwargs⟩] ∧
    callAndIterate (User.get_courses u t kwargs) t
      = [⟨.GET, userPath idv "/courses", combine_kwargs kwargs⟩] ∧
    callAndIterate (User.get_missing_submissions u t) t
      = [⟨.GET, userPath idv "/missing_submissions", []⟩] ∧
    (User.update_settings u t kwargs).requests
      = [⟨.PUT, userPath idv "/settings", combine_kwargs kwargs⟩] ∧
    (User.get_color u t asset).requests
      = [⟨.GET, userPath idv ("/colors/" ++ asset), []⟩] ∧
    (User.get_colors u t).requests
      = [⟨.GET, userPath idv "/colors", []⟩] ∧
    (User.update_color u t asset hex).requests
      = [⟨.PUT, userPath idv ("/colors/" ++ asset),
          [("hexcode", .str hex)]⟩] ∧
    (User.edit u t kwargs).requests
      = [⟨.PUT, "users/" ++ idv.pyStr, combine_kwargs kwargs⟩] ∧
    (User.merge_into u t darg).requests
      = [⟨.PUT, userPath idv ("/merge_into/" ++ dv.pyStr), []⟩] ∧
    callAndIterate (User.get_avatars u t) t
      = [⟨.GET, userPath idv "/avatars", []⟩] ∧
    callAndIterate (User.get_assignments u t cv kwargs) t
      = [⟨.GET, userPath idv ("/courses/" ++ cv.pyStr ++ "/assignments"),
          combine_kwargs kwargs⟩] ∧
    callAndIterate (User.get_enrollments u t kwargs) t
      = [⟨.GET, userPath idv "/enrollments", combine_kwargs kwargs⟩] ∧
    (User.upload u t file kwargs).requests
      = [⟨.POST, userPath idv "/files", kwargs⟩] :=
  user_requests_eq u t darg idv dv cv kwargs asset hex file hid hdarg

/-- Witness for C4 at the concrete fixtures (id 5, destination id 7,
course id 3): a sample of the asserted literal paths. -/
theorem user_request_paths_witness :
    (User.get_profile user5 downTransport []).requests
      = [⟨.GET, "users/5/profile", []⟩] ∧
    callAndIterate (User.get_courses user5 downTransport []) downTransport
      = [⟨.GET, "users/5/courses", []⟩] ∧
    (User.merge_into user5 downTransport (.raw (.num 7))).requests
      = [⟨.PUT, "users/5/merge_into/7", []⟩] ∧
    callAndIterate (User.get_assignments user5 downTransport (.num 3) [])
        downTransport
      = [⟨.GET, "users/5/courses/3/assignments", []⟩] ∧
    (User.upload user5 downTransport "f.txt" []).requests
      = [⟨.POST, "users/5/files", []⟩] := by
  have h := user_request_paths user5 downTransport (.raw (.num 7))
    (.num 5) (.num 7) (.num 3) [] "course_42" "fff" "f.txt" (by decide) rfl
  -- h is the claim theorem applied at the concrete fixtures
  exact ⟨h.1, h.2.2.1, h.2.2.2.2.2.2.2.2.2.1,
    h.2.2.2.2.2.2.2.2.2.2.2.1, h.2.2.2.2.2.2.2.2.2.2.2.2.2⟩

/-- C5: `merge_into` accepts a `User` instance or a raw identifier — an
instance whose id attribute is `n` and the raw value `n` produce identical
outbound requests — and a value that is neither a recognized identifier nor
a `User` instance raises a TypeError and issues no request. -/
theorem merge_into_argument_forms (u du : User) (t : Transport) (n : Int)
    (v : JsonValue) (hdu : du.getattr "id" = some (.num n))
    (hv : isRawIdentifier v = false) :
    (User.merge_into u t (.user du)).requests
      = (User.merge_into u t (.raw (.num n))).requests ∧
    (User.merge_into u t (.raw v)).result
      = .error (.typeError "destination_user") ∧
    (User.merge_into u t (.raw v)).requests = [] := by
  have hdu2 : obj_or_id (.user du) = .ok (.num n) := by
    simp [obj_or_id, User.getattr] at hdu ⊢
    simp [hdu]
  have hraw : obj_or_id (.raw (.num n)) = .ok (.num n) := rfl
  have herr : obj_or_id (.raw v) = .error (.typeError "destination_user") := by
    cases v with
    | num m => simp [isRawIdentifier] at hv
    | str s =>
      cases h2 : s.toInt? with
      | none => simp [obj_or_id, h2]
      | some m => simp [isRawIdentifier, h2] at hv
    | null => rfl
    | bool b => rfl
  refine ⟨?_, ?_, ?_⟩
  · cases hu : u.getattr "id" with
    | none => simp [User.merge_into, hdu2, hraw, hu]
    | some idv =>
      rw [merge_into_requests u t (.user du) idv (.num n) hu hdu2,
        merge_into_requests u t (.raw (.num n)) idv (.num n) hu hraw]
  · simp [User.merge_into, herr]
  · simp [User.merge_into, herr]

/-- Witness for C5 at the concrete fixtures: a `User` with id 7 and the raw
value 7 yield the same request, and the raw value null raises a TypeError
with no request issued. -/
theorem merge_into_argument_forms_witness :
    (User.merge_into user5 downTransport (.user user7)).requests
      = (User.merge_into user5 downTransport (.raw (.num 7))).requests ∧
    (User.merge_into user5 downTransport (.raw .null)).result
      = .error (.typeError "destination_user") ∧
    (User.merge_into user5 downTransport (.raw .null)).requests = [] :=
  merge_into_argument_forms user5 user7 downTransport 7 .null
    (by decide) (by decide)

/-- C6 (counterexample): `get_profile` does not pass its keyword arguments
through to the issued request — the request it issues carries no parameters
at all, so the keyword argument `include="x"` is not on it. -/
theorem get_profile_drops_kwargs :
    (User.get_profile user5 profileTransport [("include", .str "x")]).requests
      = [⟨.GET, "users/5/profile", []⟩] ∧
    ("include", JsonValue.str "x")
      ∉ (Request.mk .GET "users/5/profile" []).params :=
  ⟨rfl, by decide⟩

/-- C6 (amended): `get_profile` accepts keyword arguments but discards them:
whatever kwargs are given, the issued request is `GET users/{id}/profile`
with no parameters, and the parsed JSON body of the response is returned. -/
theorem get_profile_request_and_result (u : User) (t : Transport)
    (kwargs : JsonObj) (idv : JsonValue) (body : Body)
    (hid : u.getattr "id" = some idv)
    (ht : t ⟨.GET, userPath idv "/profile", []⟩ = .ok body) :
    (User.get_profile u t kwargs).requests
      = [⟨.GET, userPath idv "/profile", []⟩] ∧
    (User.get_profile u t kwargs).result = .ok body := by
  rw [get_profile_eq u t kwargs idv hid, ht]
  exact ⟨rfl, rfl⟩

/-- Witness for C6's amended theorem: a kwarg is given, the request carries
no parameters, and the mocked body comes back as the result. -/
theorem get_profile_request_and_result_witness :
    (User.get_profile user5 profileTransport [("include", .str "x")]).requests
      = [⟨.GET, "users/5/profile", []⟩] ∧
    (User.get_profile user5 profileTransport
        [("include", .str "x")]).result
      = .ok (.obj [("name", .str "ada")]) :=
  get_profile_request_and_result user5 profileTransport
    [("include", .str "x")] (.num 5) (.obj [("name", .str "ada")])
    (by decide) rfl

/-- C7: `get_color` and `update_color` embed `asset_string` in the request
path unmodified, and `update_color` sends `hexcode` unmodified as the body
field named `hexcode` (no '#' is stripped or added to either value). -/
theorem color_asset_hexcode_passthrough (u : User) (t : Transport)
    (asset hex : String) (idv : JsonValue) (hid : u.getattr "id" = some idv) :
    (User.get_color u t asset).requests
      = [⟨.GET, userPath idv ("/colors/" ++ asset), []⟩] ∧
    (User.update_color u t asset hex).requests
      = [⟨.PUT, userPath idv ("/colors/" ++ asset),
          [("hexcode", .str hex)]⟩] := by
  rw [get_color_eq u t asset idv hid, update_color_eq u t asset hex idv hid]
  exact ⟨rfl, rfl⟩

/-- Witness for C7 with a '#'-carrying hexcode: the path embeds
`course_42` verbatim and the body field holds `#ab00ff` verbatim. -/
theorem color_asset_hexcode_passthrough_witness :
    (User.get_color user5 downTransport "course_42").requests
      = [⟨.GET, "users/5/colors/course_42", []⟩] ∧
    (User.update_color user5 downTransport "course_42" "#ab00ff").requests
      = [⟨.PUT, "users/5/colors/course_42",
          [("hexcode", .str "#ab00ff")]⟩] :=
  color_asset_hexcode_passthrough user5 downTransport "course_42" "#ab00ff"
    (.num 5) (by decide)

/-- What C8 asserts of one listing call: no request is issued at call time,
the call returns a sequence object whose elements are built by `mk`, a
request is issued exactly when iteration begins, and each item of the fetched
page is constructed with `mk`. -/
def lazyListing {α : Type} (r : MethodResult (PaginatedList α))
    (mk : JsonObj → α) : Prop :=
  r.requests = [] ∧
  ∃ pl, r.result = .ok pl ∧ pl.contentClass = mk ∧
    (∀ t2 : Transport, (pl.iterate t2).2 = [⟨pl.method, pl.path, pl.params⟩]) ∧
    ∀ (t2 : Transport) (items : List JsonObj),
      t2 ⟨pl.method, pl.path, pl.params⟩ = .ok (.arr items) →
      (pl.iterate t2).1 = .ok (items.map mk)

/-- C8: each of the six listing methods returns a sequence object without
issuing any request at call time; a request is first issued when iteration
begins, and each element is constructed as the declared resource type. -/
theorem listing_methods_lazy (u : User) (t : Transport) (kwargs : JsonObj)
    (cv idv : JsonValue) (hid : u.getattr "id" = some idv) :
    lazyListing (User.get_page_views u t kwargs) PageView.mk ∧
    lazyListing (User.get_courses u t kwargs) Course.mk ∧
    lazyListing (User.get_missing_submissions u t) Assignment.mk ∧
    lazyListing (User.get_avatars u t) Avatar.mk ∧
    lazyListing (User.get_assignments u t cv kwargs) Assignment.mk ∧
    lazyListing (User.get_enrollments u t kwargs) Enrollment.mk := by
  refine ⟨?_, ?_, ?_, ?_, ?_, ?_⟩
  · rw [lazyListing, get_page_views_eq u t kwargs idv hid]
    exact ⟨rfl, _, rfl, rfl, fun t2 => iterate_requests _ t2,
      fun t2 items h => iterate_of_arr _ t2 items h⟩
  · rw [lazyListing, get_courses_eq u t kwargs idv hid]
    exact ⟨rfl, _, rfl, rfl, fun t2 => iterate_requests _ t2,
      fun t2 items h => iterate_of_arr _ t2 items h⟩
  · rw [lazyListing, get_missing_submissions_eq u t idv hid]
    exact ⟨rfl, _, rfl, rfl, fun t2 => iterate_requests _ t2,
      fun t2 items h => iterate_of_arr _ t2 items h⟩
  · rw [lazyListing, get_avatars_eq u t idv hid]
    exact ⟨rfl, _, rfl, rfl, fun t2 => iterate_requests _ t2,
      fun t2 items h => iterate_of_arr _ t2 items h⟩
  · rw [lazyListing, get_assignments_eq u t cv kwargs idv hid]
    exact ⟨rfl, _, rfl, rfl, fun t2 => iterate_requests _ t2,
      fun t2 items h => iterate_of_arr _ t2 items h⟩
  · rw [lazyListing, get_enrollments_eq u t kwargs idv hid]
    exact ⟨rfl, _, rfl, rfl, fun t2 => iterate_requests _ t2,
      fun t2 items h => iterate_of_arr _ t2 items h⟩

/-- Witness for C8 at the concrete fixtures. -/
theorem listing_methods_lazy_witness :
    lazyListing (User.get_page_views user5 downTransport []) PageView.mk ∧
    lazyListing (User.get_courses user5 downTransport []) Course.mk ∧
    lazyListing (User.get_missing_submissions user5 downTransport)
      Assignment.mk ∧
    lazyListing (User.get_avatars user5 downTransport) Avatar.mk ∧
    lazyListing (User.get_assignments user5 downTransport (.num 3) [])
      Assignment.mk ∧
    lazyListing (User.get_enrollments user5 downTransport []) Enrollment.mk :=
  listing_methods_lazy user5 downTransport [] (.num 3) (.num 5) (by decide)

/-- C9: when the requester raises during `edit` or `merge_into`, the
instance's attribute bag is left unchanged and the transport error is
propagated — attributes are only mutated after a successful response. -/
theorem edit_merge_atomic_on_error (u : User) (t : Transport)
    (darg : MergeArg) (idv dv : JsonValue) (kwargs : JsonObj)
    (e1 e2 : String)
    (hid : u.getattr "id" = some idv) (hdarg : obj_or_id darg = .ok dv)
    (he : t ⟨.PUT, "users/" ++ idv.pyStr, combine_kwargs kwargs⟩ = .error e1)
    (hm : t ⟨.PUT, userPath idv ("/merge_into/" ++ dv.pyStr), []⟩
      = .error e2) :
    (User.edit u t kwargs).self = u ∧
    (User.edit u t kwargs).result = .error (.transport e1) ∧
    (User.merge_into u t darg).self = u ∧
    (User.merge_into u t darg).result = .error (.transport e2) := by
  rw [edit_of_error u t kwargs idv e1 hid he,
    merge_into_of_error u t darg idv dv e2 hid hdarg hm]
  exact ⟨rfl, rfl, rfl, rfl⟩

/-- Witness for C9 against the everything-fails transport. -/
theorem edit_merge_atomic_on_error_witness :
    (User.edit user5 downTransport []).self = user5 ∧
    (User.edit user5 downTransport []).result
      = .error (.transport "boom") ∧
    (User.merge_into user5 downTransport (.user user7)).self = user5 ∧
    (User.merge_into user5 downTransport (.user user7)).result
      = .error (.transport "boom") :=
  edit_merge_atomic_on_error user5 downTransport (.user user7)
    (.num 5) (.num 7) [] "boom" "boom" (by decide) rfl rfl rfl

/-- C10: every request issued by any of the fourteen operations (for the
listing ones, including the request issued when iteration begins) has a path
that is either exactly `users/` followed by the string form of `self.id`
(the `edit` case) or that followed by `/` and a sub-path. -/
theorem requests_under_users_id (u : User) (t : Transport) (darg : MergeArg)
    (idv dv cv : JsonValue) (kwargs : JsonObj) (asset hex file : String)
    (hid : u.getattr "id" = some idv) (hdarg : obj_or_id darg = .ok dv) :
    ∀ req ∈ (User.get_profile u t kwargs).requests
        ++ callAndIterate (User.get_page_views u t kwargs) t
        ++ callAndIterate (User.get_courses u t kwargs) t
        ++ callAndIterate (User.get_missing_submissions u t) t
        ++ (User.update_settings u t kwargs).requests
        ++ (User.get_color u t asset).requests
        ++ (User.get_colors u t).requests
        ++ (User.update_color u t asset hex).requests
        ++ (User.edit u t kwargs).requests
        ++ (User.merge_into u t darg).requests
        ++ callAndIterate (User.get_avatars u t) t
        ++ callAndIterate (User.get_assignments u t cv kwargs) t
        ++ callAndIterate (User.get_enrollments u t kwargs) t
        ++ (User.upload u t file kwargs).requests,
      req.path = "users/" ++ idv.pyStr ∨
        ∃ rest, req.path = userPath idv ("/" ++ rest) := by
  have h := user_requests_eq u t darg idv dv cv kwargs asset hex file
    hid hdarg
  intro req hreq
  rw [h.1, h.2.1, h.2.2.1, h.2.2.2.1, h.2.2.2.2.1, h.2.2.2.2.2.1,
    h.2.2.2.2.2.2.1, h.2.2.2.2.2.2.2.1, h.2.2.2.2.2.2.2.2.1,
    h.2.2.2.2.2.2.2.2.2.1, h.2.2.2.2.2.2.2.2.2.2.1,
    h.2.2.2.2.2.2.2.2.2.2.2.1, h.2.2.2.2.2.2.2.2.2.2.2.2.1,
    h.2.2.2.2.2.2.2.2.2.2.2.2.2] at hreq
  simp only [List.append_assoc, List.mem_append, List.mem_singleton] at hreq
  rcases hreq with rfl | rfl | rfl | rfl | rfl | rfl | rfl | rfl | rfl | rfl
    | rfl | rfl | rfl | rfl
  · exact Or.inr ⟨"profile", rfl⟩
  · exact Or.inr ⟨"page_views", rfl⟩
  · exact Or.inr ⟨"courses", rfl⟩
  · exact Or.inr ⟨"missing_submissions", rfl⟩
  · exact Or.inr ⟨"settings", rfl⟩
  · exact Or.inr ⟨"colors/" ++ asset, by
      show userPath idv ("/colors/" ++ asset)
        = userPath idv ("/" ++ ("colors/" ++ asset))
      rw [← String.append_assoc]
      rfl⟩
  · exact Or.inr ⟨"colors", rfl⟩
  · exact Or.inr ⟨"colors/" ++ asset, by
      show userPath idv ("/colors/" ++ asset)
        = userPath idv ("/" ++ ("colors/" ++ asset))
      rw [← String.append_assoc]
      rfl⟩
  · exact Or.inl rfl
  · exact Or.inr ⟨"merge_into/" ++ dv.pyStr, by
      show userPath idv ("/merge_into/" ++ dv.pyStr)
        = userPath idv ("/" ++ ("merge_into/" ++ dv.pyStr))
      rw [← String.append_assoc]
      rfl⟩
  · exact Or.inr ⟨"avatars", rfl⟩
  · exact Or.inr ⟨"courses/" ++ cv.pyStr ++ "/assignments", by
      show userPath idv ("/courses/" ++ cv.pyStr ++ "/assignments")
        = userPath idv ("/" ++ ("courses/" ++ cv.pyStr ++ "/assignments"))
      rw [← String.append_assoc, ← String.append_assoc]
      rfl⟩
  · exact Or.inr ⟨"enrollments", rfl⟩
  · exact Or.inr ⟨"files", rfl⟩

/-- Witness for C10: a sample request of the fixture run lies under
`users/5`. -/
theorem requests_under_users_id_witness :
    (Request.mk .GET "users/5/profile" []).path
      = "users/" ++ (JsonValue.num 5).pyStr ∨
    ∃ rest, (Request.mk .GET "users/5/profile" []).path
      = userPath (.num 5) ("/" ++ rest) :=
  requests_under_users_id user5 downTransport (.raw (.num 7))
    (.num 5) (.num 7) (.num 3) [] "course_42" "fff" "f.txt"
    (by decide) rfl ⟨.GET, "users/5/profile", []⟩ (by decide)

/-- C1 (counterexample): in the spec's scenario — a user with id 5 merging
into a user with id 7 against a transport answering `PUT users/5/merge_into/7`
with `{"id": 7, "merge_into_id": null}` — `self.id` does NOT stay 5: the
response body's `id` key overwrites it. -/
theorem merge_scenario_id_not_five :
    (User.merge_into user5 mergeTransport (.user user7)).self.getattr "id"
      ≠ some (.num 5) := by
  decide

/-- C1 (amended): in the spec's scenario the call issues exactly
`PUT users/5/merge_into/7`, ends with `self.id` equal to 7 (overwritten by
the response body's `id` key), sets the `merge_into_id` attribute to null,
and returns the very same instance it mutated. -/
theorem merge_scenario_outcome :
    (User.merge_into user5 mergeTransport (.user user7)).self.getattr "id"
      = some (.num 7) ∧
    (User.merge_into user5 mergeTransport (.user user7)).self.getattr
      "merge_into_id" = some .null ∧
    (User.merge_into user5 mergeTransport (.user user7)).result
      = .ok (User.merge_into user5 mergeTransport (.user user7)).self ∧
    (User.merge_into user5 mergeTransport (.user user7)).requests
      = [⟨.PUT, "users/5/merge_into/7", []⟩] :=
  ⟨rfl, rfl, rfl, rfl⟩
